import Mathlib

/-!
Verification of the icon-resolution subsystem of libxdg-go (`icons` package:
`main.go`, `themeUtils.go`) against its specification.

The Go code is shallowly embedded: Go `int` becomes `Int` (no claim here
depends on 64-bit wrap-around), Go `(T, error)` results become
`Except String T` carrying the literal error messages, and the filesystem
consulted by `os.Stat` is an explicit parameter `FS` mapping a path to
`none` (no entry) or `some isDir`.  String handling (`strings.TrimSpace`,
`ToLower`, ...) is modelled on ASCII, which covers every string any claim
touches.  Go map iteration order is unspecified; where the source ranges
over a map we model the map as an association list in insertion order (no
claim depends on the order chosen).
-/

namespace Icons

/-- Filesystem model: `fs p = none` means no entry at path `p`,
`fs p = some d` means an entry exists and `d` tells whether it is a
directory (what `os.Stat` reports to `fileExists`). -/
def FS : Type := String → Option Bool

/-- Model of `fileExists` from main.go: `err == nil && !info.IsDir()`. -/
def fileExists (fs : FS) (filename : String) : Bool :=
  match fs filename with
  | some isDir => !isDir
  | none => false

/-- Model of `filepath.Join` for already-clean components: empty components are
skipped and the rest joined with `/` (on such inputs Go's `Clean` is the
identity, and every path built by this package is of that shape). -/
def joinPath (parts : List String) : String :=
  String.intercalate "/" (parts.filter (fun p => p ≠ ""))

/-- Model of `abs` from main.go. -/
def abs (x : Int) : Int :=
  if x < 0 then -x else x

/-- Model of `int(^uint(0) >> 1)`: the largest 64-bit Go int, the initial
`minDistance` in `LookupIcon`. -/
def maxInt : Int := 2 ^ 63 - 1

/-- Model of `Subdir` from main.go.  The Go field `Type` is spelled `type` here
(`Type` is reserved in Lean); all other field names are kept. -/
structure Subdir where
  type : String -- Fixed, Scaled, Threshold
  PathName : String
  Size : Int
  MinSize : Int
  MaxSize : Int
  Threshold : Int
  Scale : Int
  Context : String
deriving DecidableEq, Repr

/-- Model of `Theme` from main.go. -/
structure Theme where
  Name : String
  Subdirs : List Subdir
  Parents : List String
  BasePath : String
deriving DecidableEq, Repr

/-- Model of `map[string]Theme` modelled as an association list (first binding of a
key is the live one; `insertTM` below realises Go map assignment). -/
abbrev ThemeMap : Type := List (String × Theme)

/-- Go map read `themeMap[name]`. -/
def lookupTM : ThemeMap → String → Option Theme
  | [], _ => none
  | (k, v) :: rest, name => if k = name then some v else lookupTM rest name

/-- Go map assignment `themeMap[name] = t` (replaces the live binding or
appends a new one). -/
def insertTM : ThemeMap → String → Theme → ThemeMap
  | [], name, t => [(name, t)]
  | (k, v) :: rest, name, t =>
    if k = name then (name, t) :: rest else (k, v) :: insertTM rest name t

/-- Model of `directoryMatchesSize` from main.go. -/
def directoryMatchesSize (subdir : Subdir) (iconSize iconScale : Int) : Bool :=
  if subdir.Scale ≠ iconScale then
    false
  else if subdir.type = "Fixed" then
    subdir.Size == iconSize
  else if subdir.type = "Scaled" then
    decide (subdir.MinSize ≤ iconSize) && decide (iconSize ≤ subdir.MaxSize)
  else if subdir.type = "Threshold" then
    decide (subdir.Size - subdir.Threshold ≤ iconSize) &&
      decide (iconSize ≤ subdir.Size + subdir.Threshold)
  else
    false

/-- Model of `directorySizeDistance` from main.go. -/
def directorySizeDistance (subdir : Subdir) (iconSize iconScale : Int) : Int :=
  if subdir.type = "Fixed" then
    abs (subdir.Size * subdir.Scale - iconSize * iconScale)
  else if subdir.type = "Scaled" then
    if iconSize * iconScale < subdir.MinSize * subdir.Scale then
      subdir.MinSize * subdir.Scale - iconSize * iconScale
    else if iconSize * iconScale > subdir.MaxSize * subdir.Scale then
      iconSize * iconScale - subdir.MaxSize * subdir.Scale
    else 0
  else if subdir.type = "Threshold" then
    if iconSize * iconScale < (subdir.Size - subdir.Threshold) * subdir.Scale then
      (subdir.Size - subdir.Threshold) * subdir.Scale - iconSize * iconScale
    else if iconSize * iconScale > (subdir.Size + subdir.Threshold) * subdir.Scale then
      iconSize * iconScale - (subdir.Size + subdir.Threshold) * subdir.Scale
    else 0
  else 0

/-- The extension preference order used by `LookupIcon` and
`lookupFallbackIcon`. -/
def extensions : List String := ["png", "svg", "xpm"]

/-- The inner extension loop of `LookupIcon`, threading the
`(closestFilename, minDistance)` state; `Sum.inl f` models the early
`return filename, nil` taken on an existing file in a matching directory. -/
def lookupExts (fs : FS) (theme : Theme) (subdir : Subdir) (iconName : String)
    (size scale : Int) : List String → String × Int → String ⊕ (String × Int)
  | [], st => Sum.inr st
  | ext :: rest, (closest, minDist) =>
    let filename := joinPath [theme.BasePath, subdir.PathName, iconName ++ "." ++ ext]
    if fileExists fs filename && directoryMatchesSize subdir size scale then
      Sum.inl filename
    else if fileExists fs filename then
      let distance := directorySizeDistance subdir size scale
      if distance < minDist then
        lookupExts fs theme subdir iconName size scale rest (filename, distance)
      else
        lookupExts fs theme subdir iconName size scale rest (closest, minDist)
    else
      lookupExts fs theme subdir iconName size scale rest (closest, minDist)

/-- The outer subdirectory loop of `LookupIcon`, including the
`subdir.Size == size && subdir.Scale == scale` pre-filter from the source. -/
def lookupSubdirs (fs : FS) (theme : Theme) (iconName : String)
    (size scale : Int) : List Subdir → String × Int → String ⊕ (String × Int)
  | [], st => Sum.inr st
  | subdir :: rest, st =>
    if subdir.Size == size && subdir.Scale == scale then
      match lookupExts fs theme subdir iconName size scale extensions st with
      | Sum.inl f => Sum.inl f
      | Sum.inr st' => lookupSubdirs fs theme iconName size scale rest st'
    else
      lookupSubdirs fs theme iconName size scale rest st

/-- Model of `LookupIcon` from main.go. -/
def LookupIcon (fs : FS) (iconName : String) (size scale : Int)
    (theme : Theme) : Except String String :=
  match lookupSubdirs fs theme iconName size scale theme.Subdirs ("", maxInt) with
  | Sum.inl f => Except.ok f
  | Sum.inr (closest, _) =>
    if closest ≠ "" then Except.ok closest else Except.error "icon not found"

/-- ASCII model of `strings.ToLower`. -/
def goToLower (s : String) : String := String.mk (s.toList.map Char.toLower)

/-- ASCII model of `strings.ToUpper`. -/
def goToUpper (s : String) : String := String.mk (s.toList.map Char.toUpper)

def titleChars : Bool → List Char → List Char
  | _, [] => []
  | prevLetter, c :: cs =>
    (if prevLetter then c.toLower else c.toUpper) :: titleChars c.isAlpha cs

/-- ASCII model of `cases.Title(language.English, cases.Compact).String`:
the first letter of each word is upper-cased, the rest lower-cased. -/
def goTitle (s : String) : String := String.mk (titleChars false s.toList)

/-- The nested parent-record lookups of `findIconHelper` (main.go lines
115-125): the parent name verbatim, then lower-cased, then upper-cased,
then title-cased; the first map key present wins. -/
def resolveParent (themeMap : ThemeMap) (parentName : String) : Option Theme :=
  match lookupTM themeMap parentName with
  | some t => some t
  | none =>
    match lookupTM themeMap (goToLower parentName) with
    | some t => some t
    | none =>
      match lookupTM themeMap (goToUpper parentName) with
      | some t => some t
      | none => lookupTM themeMap (goTitle parentName)

/-- The `for _, parentName := range theme.Parents` loop of
`findIconHelper`: `recurse` is the recursive call at the next fuel level;
a parent none of whose four spellings is a map key is skipped. -/
def searchParents (recurse : Theme → Except String String)
    (themeMap : ThemeMap) : List String → Except String String
  | [] => Except.error "icon not found in theme or parents"
  | parentName :: rest =>
    match resolveParent themeMap parentName with
    | none => searchParents recurse themeMap rest
    | some parentTheme =>
      match recurse parentTheme with
      | Except.ok f => Except.ok f
      | Except.error _ => searchParents recurse themeMap rest

/-- Model of `findIconHelper` from main.go.  The source recurses through parent
themes with no cycle guard and may therefore fail to terminate; `fuel`
bounds the recursion depth (any behaviour of the source on a terminating
run is the behaviour here for every large enough fuel). -/
def findIconHelper (fs : FS) (icon : String) (size scale : Int) :
    Nat → Theme → ThemeMap → Except String String
  | 0, _, _ => Except.error "icon not found in theme or parents"
  | fuel + 1, theme, themeMap =>
    match LookupIcon fs icon size scale theme with
    | Except.ok f => Except.ok f
    | Except.error _ =>
      searchParents (fun pt => findIconHelper fs icon size scale fuel pt themeMap)
        themeMap theme.Parents

/-- The fallback directories of `lookupFallbackIcon`. -/
def fallbackDirs : List String := ["/usr/share/icons", "/usr/share/pixmaps"]

/-- Inner extension loop of `lookupFallbackIcon`. -/
def fallbackExts (fs : FS) (dir icon : String) : List String → Option String
  | [] => none
  | ext :: rest =>
    let filename := joinPath [dir, icon ++ "." ++ ext]
    if fileExists fs filename then some filename else fallbackExts fs dir icon rest

/-- Outer directory loop of `lookupFallbackIcon`. -/
def fallbackScan (fs : FS) (icon : String) : List String → Option String
  | [] => none
  | dir :: rest =>
    match fallbackExts fs dir icon extensions with
    | some f => some f
    | none => fallbackScan fs icon rest

/-- Model of `lookupFallbackIcon` from main.go. -/
def lookupFallbackIcon (fs : FS) (icon : String) : Except String String :=
  match fallbackScan fs icon fallbackDirs with
  | some f => Except.ok f
  | none => Except.error "fallback icon not found"

/-- The hicolor lookup of `FindIcon`: key `"hicolor"` first, then
`"Hicolor"`. -/
def hicolorTheme (themeMap : ThemeMap) : Option Theme :=
  match lookupTM themeMap "hicolor" with
  | some t => some t
  | none => lookupTM themeMap "Hicolor"

/-- Model of `FindIcon` from main.go. -/
def FindIcon (fs : FS) (icon : String) (size scale : Int) (theme : Theme)
    (themeMap : ThemeMap) (fuel : Nat) : Except String String :=
  match findIconHelper fs icon size scale fuel theme themeMap with
  | Except.ok f => Except.ok f
  | Except.error _ =>
    match hicolorTheme themeMap with
    | none => Except.error "hicolor theme not found"
    | some hicolor =>
      match findIconHelper fs icon size scale fuel hicolor themeMap with
      | Except.ok f => Except.ok f
      | Except.error _ => lookupFallbackIcon fs icon

/-! ### Theme index parser (themeUtils.go) -/

def digitsValGo : List Char → Nat → Option Nat
  | [], acc => some acc
  | c :: cs, acc =>
    if c.isDigit then digitsValGo cs (acc * 10 + (c.toNat - '0'.toNat)) else none

/-- Model of `strconv.Atoi`: an optional sign followed by at least one digit; any
other shape is an error (`none`).  The model uses unbounded `Int`; the
64-bit range clamping of `strconv` is immaterial to every claim. -/
def atoi (s : String) : Option Int :=
  match s.toList with
  | [] => none
  | '+' :: ds => if ds = [] then none else (digitsValGo ds 0).map Int.ofNat
  | '-' :: ds => if ds = [] then none else (digitsValGo ds 0).map (fun n => -(n : Int))
  | ds => (digitsValGo ds 0).map Int.ofNat

/-- Model of `x, _ = strconv.Atoi(value)`: the parse error is discarded and a
failed parse leaves the Go zero value. -/
def atoiOrZero (s : String) : Int := (atoi s).getD 0

/-- Go `unicode.IsSpace` restricted to ASCII (what `strings.TrimSpace`
strips). -/
def isSpaceGo (c : Char) : Bool :=
  c = ' ' || c = '\t' || c = '\n' || c = '\x0b' || c = '\x0c' || c = '\r'

/-- Model of `strings.TrimSpace`, on ASCII whitespace. -/
def trimGo (s : String) : String :=
  String.mk (((s.toList.dropWhile isSpaceGo).reverse.dropWhile isSpaceGo).reverse)

/-- Model of `strings.Trim(line, "[]")`: strip every leading and trailing `[` or
`]`. -/
def trimBrackets (s : String) : String :=
  let isBr := fun c => c = '[' || c = ']'
  String.mk (((s.toList.dropWhile isBr).reverse.dropWhile isBr).reverse)

/-- Model of `strings.HasPrefix s p` for a one-character prefix. -/
def headIs (s : String) (c : Char) : Bool :=
  match s.toList with
  | [] => false
  | c' :: _ => c' = c

/-- Model of `strings.HasSuffix s p` for a one-character suffix. -/
def lastIs (s : String) (c : Char) : Bool :=
  match s.toList.getLast? with
  | none => false
  | some c' => c' = c

def splitCharAux (sep : Char) : List Char → List Char → List String
  | [], acc => [String.mk acc.reverse]
  | c :: cs, acc =>
    if c = sep then String.mk acc.reverse :: splitCharAux sep cs [] else splitCharAux sep cs (c :: acc)

/-- Model of `strings.Split(s, sep)` for a one-character separator (always at least
one piece; pieces are not trimmed, exactly as in Go). -/
def splitChar (sep : Char) (s : String) : List String :=
  splitCharAux sep s.toList []

def breakAtEq : List Char → Option (List Char × List Char)
  | [] => none
  | c :: cs =>
    if c = '=' then some ([], cs)
    else (breakAtEq cs).map (fun p => (c :: p.1, p.2))

/-- Model of `strings.SplitN(line, "=", 2)` followed by the `len(parts) != 2` check
and `strings.TrimSpace` of both halves: `none` when the line has no `=`. -/
def splitKV (line : String) : Option (String × String) :=
  match breakAtEq line.toList with
  | none => none
  | some (key, value) => some (trimGo (String.mk key), trimGo (String.mk value))

/-- The `Subdir{Scale: 1, Type: "Threshold"}` placeholder seeded for every
name listed under `Directories`. -/
def seedSubdir : Subdir :=
  { type := "Threshold", PathName := "", Size := 0, MinSize := 0, MaxSize := 0,
    Threshold := 0, Scale := 1, Context := "" }

/-- The `subdirs` map of the parser, in insertion order. -/
abbrev SubdirMap : Type := List (String × Subdir)

def lookupSD : SubdirMap → String → Option Subdir
  | [], _ => none
  | (k, v) :: rest, name => if k = name then some v else lookupSD rest name

def insertSD : SubdirMap → String → Subdir → SubdirMap
  | [], name, sd => [(name, sd)]
  | (k, v) :: rest, name, sd =>
    if k = name then (name, sd) :: rest else (k, v) :: insertSD rest name sd

/-- The parser state: the theme-level fields collected so far, the
`subdirs` map and `currentSection`. -/
structure PTState where
  name : String
  parents : List String
  subdirs : SubdirMap
  currentSection : String
deriving DecidableEq, Repr

/-- The `switch key` over a directory section's keys (numeric fields via
`strconv.Atoi` with the error discarded; an unrecognised key changes
nothing). -/
def updateSubdirField (sd : Subdir) (key value : String) : Subdir :=
  if key = "Size" then { sd with Size := atoiOrZero value }
  else if key = "MinSize" then { sd with MinSize := atoiOrZero value }
  else if key = "MaxSize" then { sd with MaxSize := atoiOrZero value }
  else if key = "Scale" then { sd with Scale := atoiOrZero value }
  else if key = "Threshold" then { sd with Threshold := atoiOrZero value }
  else if key = "Type" then { sd with type := value }
  else if key = "Context" then { sd with Context := value }
  else sd

/-- One iteration of the scanner loop of `parseIndexTheme`: trim the line,
skip blanks and `#` comments, handle `[Section]` headers, then `key=value`
pairs — in the `Icon Theme` section the theme-level keys, in a section
declared under `Directories` the rule fields (also setting `PathName` and
storing the rule back for every such line, unknown keys included). -/
def processLine (st : PTState) (raw : String) : PTState :=
  let line := trimGo raw
  if line = "" || headIs line '#' then st
  else if headIs line '[' && lastIs line ']' then
    { st with currentSection := trimBrackets line }
  else
    match splitKV line with
    | none => st
    | some (key, value) =>
      if st.currentSection = "Icon Theme" then
        if key = "Name" then { st with name := value }
        else if key = "Inherits" then { st with parents := splitChar ',' value }
        else if key = "Directories" then
          { st with subdirs :=
              (splitChar ',' value).foldl (fun sds dir => insertSD sds dir seedSubdir) st.subdirs }
        else st
      else
        match lookupSD st.subdirs st.currentSection with
        | none => st
        | some subdir =>
          let subdir := updateSubdirField subdir key value
          let subdir := { subdir with PathName := st.currentSection }
          { st with subdirs := insertSD st.subdirs st.currentSection subdir }

/-- The content-processing part of `parseIndexTheme`, a total function of
the descriptor's lines: the final `Theme`, with `Subdirs` the values of
the `subdirs` map (the source ranges over a Go map here; this model uses
insertion order, one of the admissible orders). -/
def parseIndexThemeContent (themeDir : String) (lines : List String) : Theme :=
  let st := lines.foldl processLine
    { name := "", parents := [], subdirs := [], currentSection := "" }
  { Name := st.name, Subdirs := st.subdirs.map Prod.snd,
    Parents := st.parents, BasePath := themeDir }

/-- Model of `parseIndexTheme` from themeUtils.go.  The descriptor file is given as
`Except.error e` when `os.Open` (or the scanner) fails with `e`, and
`Except.ok lines` when its content is readable. -/
def parseIndexTheme (themeDir : String) (file : Except String (List String)) :
    Except String Theme :=
  match file with
  | Except.error e => Except.error ("failed to open index.theme: " ++ e)
  | Except.ok lines => Except.ok (parseIndexThemeContent themeDir lines)

/-- One directory visited by `filepath.Walk` in `GenerateThemeMap`:
its path and its `index.theme` status (`none`: no descriptor, stat fails
and the directory is skipped; `some file`: a descriptor that is readable
or not, as in `parseIndexTheme`). -/
structure VisitedDir where
  path : String
  indexTheme : Option (Except String (List String))
deriving Repr

/-- The walk callback of `GenerateThemeMap`, folded over the directories
`filepath.Walk` visits (in its lexical visit order): a directory without a
descriptor is passed over, a parse failure aborts the walk, a parsed theme
is stored under its declared name. -/
def generateWalk : List VisitedDir → ThemeMap → Except String ThemeMap
  | [], themeMap => Except.ok themeMap
  | v :: rest, themeMap =>
    match v.indexTheme with
    | none => generateWalk rest themeMap
    | some file =>
      match parseIndexTheme v.path file with
      | Except.error e => Except.error e
      | Except.ok theme => generateWalk rest (insertTM themeMap theme.Name theme)

/-- Model of `GenerateThemeMap` from themeUtils.go, over the sequence of
directories the walk visits; a walk error is wrapped as in the source. -/
def GenerateThemeMap (visits : List VisitedDir) : Except String ThemeMap :=
  match generateWalk visits [] with
  | Except.error e => Except.error ("failed to generate theme map: " ++ e)
  | Except.ok themeMap => Except.ok themeMap

/-! ### Cache serialization (encoding/json on `map[string]Theme`) -/

/-- JSON value trees, the image of `encoding/json` on the cache file. -/
inductive JValue where
  | jstr : String → JValue
  | jnum : Int → JValue
  | jarr : List JValue → JValue
  | jobj : List (String × JValue) → JValue

/-- Model of `encoding/json` marshalling of `Subdir`: every exported field under
its own name, in declaration order. -/
def encodeSubdir (sd : Subdir) : JValue :=
  JValue.jobj [("Type", JValue.jstr sd.type), ("PathName", JValue.jstr sd.PathName),
    ("Size", JValue.jnum sd.Size), ("MinSize", JValue.jnum sd.MinSize),
    ("MaxSize", JValue.jnum sd.MaxSize), ("Threshold", JValue.jnum sd.Threshold),
    ("Scale", JValue.jnum sd.Scale), ("Context", JValue.jstr sd.Context)]

/-- Model of `encoding/json` marshalling of `Theme` (a Go nil slice would encode as
`null`; the model does not distinguish nil from empty slices, which is
lossless either way). -/
def encodeTheme (t : Theme) : JValue :=
  JValue.jobj [("Name", JValue.jstr t.Name),
    ("Subdirs", JValue.jarr (t.Subdirs.map encodeSubdir)),
    ("Parents", JValue.jarr (t.Parents.map JValue.jstr)),
    ("BasePath", JValue.jstr t.BasePath)]

/-- Model of `encoding/json` marshalling of `map[string]Theme` (Go writes map keys
sorted; the decoder is field-order-insensitive, so list order is
immaterial and the model keeps the list's own order). -/
def encodeThemeMap (tm : ThemeMap) : JValue :=
  JValue.jobj (tm.map (fun kv => (kv.1, encodeTheme kv.2)))

/-- JSON object field access by name, as the unmarshaller does. -/
def getField : List (String × JValue) → String → Option JValue
  | [], _ => none
  | (k, v) :: rest, key => if k = key then some v else getField rest key

def asStr : Option JValue → Option String
  | some (JValue.jstr s) => some s
  | _ => none

def asNum : Option JValue → Option Int
  | some (JValue.jnum n) => some n
  | _ => none

/-- Decode each element of a list, failing if any element fails. -/
def decodeList (f : JValue → Option α) : List JValue → Option (List α)
  | [] => some []
  | j :: rest =>
    match f j with
    | none => none
    | some a => (decodeList f rest).map (fun l => a :: l)

def decodeStr : JValue → Option String
  | JValue.jstr s => some s
  | _ => none

/-- Model of `encoding/json` unmarshalling of `Subdir`. -/
def decodeSubdir : JValue → Option Subdir
  | JValue.jobj fields =>
    match asStr (getField fields "Type"), asStr (getField fields "PathName"),
        asNum (getField fields "Size"), asNum (getField fields "MinSize"),
        asNum (getField fields "MaxSize"), asNum (getField fields "Threshold"),
        asNum (getField fields "Scale"), asStr (getField fields "Context") with
    | some t, some p, some sz, some mn, some mx, some th, some sc, some cx =>
      some { type := t, PathName := p, Size := sz, MinSize := mn, MaxSize := mx,
             Threshold := th, Scale := sc, Context := cx }
    | _, _, _, _, _, _, _, _ => none
  | _ => none

/-- Model of `encoding/json` unmarshalling of `Theme`. -/
def decodeTheme : JValue → Option Theme
  | JValue.jobj fields =>
    match asStr (getField fields "Name"), getField fields "Subdirs",
        getField fields "Parents", asStr (getField fields "BasePath") with
    | some n, some (JValue.jarr sds), some (JValue.jarr ps), some bp =>
      match decodeList decodeSubdir sds, decodeList decodeStr ps with
      | some subdirs, some parents =>
        some { Name := n, Subdirs := subdirs, Parents := parents, BasePath := bp }
      | _, _ => none
    | _, _, _, _ => none
  | _ => none

/-- Decode the members of a JSON object as themes keyed by field name. -/
def decodeThemePairs : List (String × JValue) → Option ThemeMap
  | [] => some []
  | (k, j) :: rest =>
    match decodeTheme j with
    | none => none
    | some t => (decodeThemePairs rest).map (fun l => (k, t) :: l)

/-- Model of `encoding/json` unmarshalling of `map[string]Theme`. -/
def decodeThemeMap : JValue → Option ThemeMap
  | JValue.jobj fields => decodeThemePairs fields
  | _ => none

/-! ### Theme map cache (`CacheThemeMap`, main.go) -/

/-- Model of `4 * time.Hour` in nanoseconds (a `time.Duration`); the comparison
`time.Since(info.ModTime()) < 4*time.Hour` guards the cache-read path. -/
def freshnessWindow : Int := 4 * 3600 * 1000000000

/-- The `for key, value := range themeMapv { themeMap[key] = value }`
merge of one generated map into the accumulated one. -/
def mergeTM (acc generated : ThemeMap) : ThemeMap :=
  generated.foldl (fun m kv => insertTM m kv.1 kv.2) acc

/-- The rebuild loop of `CacheThemeMap` over the configured data
directories: an entry is `none` when `os.Stat(v + "/icons")` reports
not-exist (the directory is skipped) and `some visits` otherwise, `visits`
being what the walk under `v + "/icons"` sees.  Any `GenerateThemeMap`
error aborts the rebuild. -/
def rebuildThemeMap : List (Option (List VisitedDir)) → ThemeMap → Except String ThemeMap
  | [], themeMap => Except.ok themeMap
  | none :: rest, themeMap => rebuildThemeMap rest themeMap
  | some visits :: rest, themeMap =>
    match GenerateThemeMap visits with
    | Except.error e => Except.error e
    | Except.ok generated => rebuildThemeMap rest (mergeTM themeMap generated)

/-- The rebuild-then-rewrite tail of `CacheThemeMap`; the `true` flag
records that the cache file was (re)written. -/
def rebuildAndWrite (dataDirs : List (Option (List VisitedDir))) :
    Except String (ThemeMap × Bool) :=
  match rebuildThemeMap dataDirs [] with
  | Except.error e => Except.error e
  | Except.ok themeMap => Except.ok (themeMap, true)

/-- Model of `CacheThemeMap` from main.go.  `cache` is `none` when the cache file
does not exist (or is a directory, which `fileExists` rejects) and
`some (modTime, content)` when it exists with that modification time and
serialized content; `now` is the current clock, so `now - modTime` is
`time.Since(info.ModTime())`.  The `Bool` of the result records whether
the rebuild-and-rewrite path ran (`false`: the cached content was served
untouched). -/
def CacheThemeMap (now : Int) (cache : Option (Int × JValue))
    (dataDirs : List (Option (List VisitedDir))) : Except String (ThemeMap × Bool) :=
  match cache with
  | some (modTime, content) =>
    if now - modTime < freshnessWindow then
      match decodeThemeMap content with
      | some themeMap => Except.ok (themeMap, false)
      | none => Except.error "cache decode failed"
    else
      rebuildAndWrite dataDirs
  | none => rebuildAndWrite dataDirs

/-! ### Concrete scenarios and analysis definitions -/

/-- The filesystem of the C1 scenario: the theme's `32` directory holds
`test.png` (a regular file) and nothing else exists. -/
def fsFoo : FS := fun p => if p = "/theme/32/test.png" then some false else none

/-- The C1 directory rule: `Threshold`, `Size` 32, `Threshold` 8,
`Scale` 1. -/
def subFoo : Subdir :=
  { type := "Threshold", PathName := "32", Size := 32, MinSize := 0, MaxSize := 0,
    Threshold := 8, Scale := 1, Context := "" }

/-- The C1 theme `Foo`, with `subFoo` as its only directory rule. -/
def themeFoo : Theme :=
  { Name := "Foo", Subdirs := [subFoo], Parents := [], BasePath := "/theme" }

/-- A theme with no subdirectories and no parents, used as a neutral
inhabitant in concrete scenarios. -/
def themeBare : Theme := { Name := "T", Subdirs := [], Parents := [], BasePath := "/b" }

/-- The filesystem of the C2 scenario: only `/usr/share/icons/x.png`
exists (a regular file). -/
def fsPix : FS := fun p => if p = "/usr/share/icons/x.png" then some false else none

/-- The six fallback candidates of `lookupFallbackIcon`, in the order the
source tries them: both directories, each with the three extensions. -/
def fallbackCandidates (icon : String) : List String :=
  [joinPath ["/usr/share/icons", icon ++ "." ++ "png"],
   joinPath ["/usr/share/icons", icon ++ "." ++ "svg"],
   joinPath ["/usr/share/icons", icon ++ "." ++ "xpm"],
   joinPath ["/usr/share/pixmaps", icon ++ "." ++ "png"],
   joinPath ["/usr/share/pixmaps", icon ++ "." ++ "svg"],
   joinPath ["/usr/share/pixmaps", icon ++ "." ++ "xpm"]]

/-- The first existing file of a candidate list, as an option. -/
def firstFileOpt (fs : FS) : List String → Option String
  | [] => none
  | p :: rest => if fileExists fs p then some p else firstFileOpt fs rest

/-- The first existing file of a candidate list (the claim's description
of the fallback scan). -/
def firstFile (fs : FS) : List String → Except String String
  | [] => Except.error "fallback icon not found"
  | p :: rest => if fileExists fs p then Except.ok p else firstFile fs rest

/-- The first descriptor parse failure along the walk, as wrapped by
`parseIndexTheme`. -/
def firstParseError : List VisitedDir → Option String
  | [] => none
  | v :: rest =>
    match v.indexTheme with
    | some (Except.error e) => some ("failed to open index.theme: " ++ e)
    | _ => firstParseError rest

/-- The themes of every visited directory holding a readable descriptor,
in walk order. -/
def themesOf : List VisitedDir → List Theme
  | [] => []
  | v :: rest =>
    match v.indexTheme with
    | some (Except.ok lines) => parseIndexThemeContent v.path lines :: themesOf rest
    | _ => themesOf rest

/-- Insert a list of themes into a map, each under its declared name. -/
def foldThemes (tm : ThemeMap) : List Theme → ThemeMap
  | [] => tm
  | t :: ts => foldThemes (insertTM tm t.Name t) ts

/-- The `(closestFilename, minDistance)` invariant of `LookupIcon`: the
tracked candidate is either still the initial empty string or a file that
was seen to exist. -/
def goodState (fs : FS) (st : String × Int) : Prop :=
  st.1 = "" ∨ fileExists fs st.1 = true

/-! ### Helper lemmas -/

/-- Arithmetic shape of the two-sided gap distance used by `Scaled` and
`Threshold` rules. -/
theorem scaledGap (lo hi A B : Int) (hlh : lo ≤ hi) :
    ((lo ≤ A ∧ A ≤ hi) → (if A < lo then lo - A else if A > hi then A - hi else 0) = 0) ∧
    ((A ≤ B ∧ B ≤ lo) →
      (if B < lo then lo - B else if B > hi then B - hi else 0) ≤
      (if A < lo then lo - A else if A > hi then A - hi else 0)) ∧
    ((hi ≤ A ∧ A ≤ B) →
      (if A < lo then lo - A else if A > hi then A - hi else 0) ≤
      (if B < lo then lo - B else if B > hi then B - hi else 0)) := by
  refine ⟨fun h1 => ?_, fun h2 => ?_, fun h3 => ?_⟩ <;> split_ifs <;> omega

/-- Evaluation of `directorySizeDistance` on a `Scaled` rule, unfolded. -/
theorem scaledDistanceEq (sd : Subdir) (h : sd.type = "Scaled") (i c : Int) :
    directorySizeDistance sd i c =
      (if i * c < sd.MinSize * sd.Scale then sd.MinSize * sd.Scale - i * c
       else if i * c > sd.MaxSize * sd.Scale then i * c - sd.MaxSize * sd.Scale
       else 0) := by
  unfold directorySizeDistance
  rw [h]
  rfl

/-! ### Claims -/

/-- C1: the claim says `LookupIcon "test" 28 1` on `themeFoo` returns
`/theme/32/test.png` with distance 0 (28 lies within the threshold band
`[24,40]`).  The code instead reports "icon not found": its pre-filter
`subdir.Size == size && subdir.Scale == scale` skips the rule because
`32 ≠ 28`, even though the rule's own matching predicate accepts the
request with distance 0 and the file exists.  This theorem evaluates the
code at the failing input and exhibits the contradiction between the
pre-filter and the matching machinery it guards. -/
theorem C1_lookupIcon_threshold_scenario :
    LookupIcon fsFoo "test" 28 1 themeFoo = Except.error "icon not found" ∧
    directoryMatchesSize subFoo 28 1 = true ∧
    directorySizeDistance subFoo 28 1 = 0 ∧
    fileExists fsFoo (joinPath [themeFoo.BasePath, subFoo.PathName, "test.png"]) = true ∧
    LookupIcon fsFoo "test" 32 1 themeFoo = Except.ok "/theme/32/test.png" :=
  ⟨rfl, rfl, rfl, rfl, rfl⟩

/-- C4 (counterexample): for the Fixed rule with `Size` 2, `Scale` 3 and
the request `size` 3, `scale` 2 the distance is `|2·3 − 3·2| = 0` although
the matching predicate rejects the request, refuting "distance is 0
exactly when matches holds". -/
theorem C4_fixed_distance_counterexample :
    directorySizeDistance
      { type := "Fixed", PathName := "p", Size := 2, MinSize := 0, MaxSize := 0,
        Threshold := 0, Scale := 3, Context := "" } 3 2 = 0 ∧
    directoryMatchesSize
      { type := "Fixed", PathName := "p", Size := 2, MinSize := 0, MaxSize := 0,
        Threshold := 0, Scale := 3, Context := "" } 3 2 = false := by
  constructor <;> rfl

/-- C4 (amended): for every Fixed rule, the matching predicate accepts iff
the rule's `Size` and `Scale` equal the request; matching implies distance
0; and the distance is 0 iff the scaled sizes coincide
(`Size·Scale = size·scale`), which can happen without a match. -/
theorem C4_fixed_match_distance (sd : Subdir) (i c : Int) (h : sd.type = "Fixed") :
    (directoryMatchesSize sd i c = true ↔ (sd.Size = i ∧ sd.Scale = c)) ∧
    (directoryMatchesSize sd i c = true → directorySizeDistance sd i c = 0) ∧
    (directorySizeDistance sd i c = 0 ↔ sd.Size * sd.Scale = i * c) := by
  have hd : directorySizeDistance sd i c = abs (sd.Size * sd.Scale - i * c) := by
    unfold directorySizeDistance
    rw [h]
    rfl
  have hm : directoryMatchesSize sd i c = true ↔ (sd.Size = i ∧ sd.Scale = c) := by
    unfold directoryMatchesSize
    rw [h]
    by_cases hsc : sd.Scale = c
    · simp [hsc]
    · simp [hsc]
  have habs : directorySizeDistance sd i c = 0 ↔ sd.Size * sd.Scale = i * c := by
    rw [hd]
    unfold abs
    generalize sd.Size * sd.Scale = A
    generalize i * c = B
    split_ifs <;> omega
  refine ⟨hm, fun hmt => ?_, habs⟩
  obtain ⟨h1, h2⟩ := hm.mp hmt
  rw [habs, h1, h2]

/-- C4 (witness): the amended theorem applied to the Fixed rule
`Size` 16, `Scale` 1 and the request `(16, 1)`. -/
theorem C4_fixed_match_distance_witness :
    directoryMatchesSize
      { type := "Fixed", PathName := "p", Size := 16, MinSize := 0, MaxSize := 0,
        Threshold := 0, Scale := 1, Context := "" } 16 1 = true ∧
    directorySizeDistance
      { type := "Fixed", PathName := "p", Size := 16, MinSize := 0, MaxSize := 0,
        Threshold := 0, Scale := 1, Context := "" } 16 1 = 0 := by
  have h := C4_fixed_match_distance
    { type := "Fixed", PathName := "p", Size := 16, MinSize := 0, MaxSize := 0,
      Threshold := 0, Scale := 1, Context := "" } 16 1 rfl
  exact ⟨h.1.mpr ⟨rfl, rfl⟩, h.2.1 (h.1.mpr ⟨rfl, rfl⟩)⟩

/-- C5 (counterexample): the Scaled rule `MinSize` 10, `MaxSize` 20,
`Scale` −1 satisfies the claim's hypothesis `MinSize ≤ MaxSize`, yet for
the requests `15·(−1) = −15` and `12·(−1) = −12`, both on the far side of
`MaxSize·Scale = −20`, moving away from the interval (from −12 out to −15
is towards it numerically, so take the claim's reading: −15 ≤ −12 with
both above the upper bound −20) the distance decreases from 5 to 2,
refuting monotonicity as claimed for all rules with `MinSize ≤ MaxSize`. -/
theorem C5_scaled_distance_counterexample :
    (10 : Int) ≤ 20 ∧
    (20 : Int) * (-1) ≤ 15 * (-1) ∧ (15 : Int) * (-1) ≤ 12 * (-1) ∧
    ¬(directorySizeDistance
        { type := "Scaled", PathName := "d", Size := 0, MinSize := 10, MaxSize := 20,
          Threshold := 0, Scale := -1, Context := "" } 15 (-1) ≤
      directorySizeDistance
        { type := "Scaled", PathName := "d", Size := 0, MinSize := 10, MaxSize := 20,
          Threshold := 0, Scale := -1, Context := "" } 12 (-1)) := by
  refine ⟨by decide, by decide, by decide, ?_⟩
  have h1 : directorySizeDistance
      { type := "Scaled", PathName := "d", Size := 0, MinSize := 10, MaxSize := 20,
        Threshold := 0, Scale := -1, Context := "" } 15 (-1) = 5 := rfl
  have h2 : directorySizeDistance
      { type := "Scaled", PathName := "d", Size := 0, MinSize := 10, MaxSize := 20,
        Threshold := 0, Scale := -1, Context := "" } 12 (-1) = 2 := rfl
  rw [h1, h2]
  decide

/-- C5 (amended): for every Scaled rule with `MinSize ≤ MaxSize` and
`0 ≤ Scale`, the distance is exactly 0 whenever the requested scaled size
lies in `[MinSize·Scale, MaxSize·Scale]`, and it is monotonically
non-decreasing as the requested scaled size moves away from that interval
below or above. -/
theorem C5_scaled_distance_shape (sd : Subdir) (i1 c1 i2 c2 : Int)
    (h : sd.type = "Scaled") (hmm : sd.MinSize ≤ sd.MaxSize) (hsc : 0 ≤ sd.Scale) :
    ((sd.MinSize * sd.Scale ≤ i1 * c1 ∧ i1 * c1 ≤ sd.MaxSize * sd.Scale) →
      directorySizeDistance sd i1 c1 = 0) ∧
    ((i1 * c1 ≤ i2 * c2 ∧ i2 * c2 ≤ sd.MinSize * sd.Scale) →
      directorySizeDistance sd i2 c2 ≤ directorySizeDistance sd i1 c1) ∧
    ((sd.MaxSize * sd.Scale ≤ i1 * c1 ∧ i1 * c1 ≤ i2 * c2) →
      directorySizeDistance sd i1 c1 ≤ directorySizeDistance sd i2 c2) := by
  have hlohi : sd.MinSize * sd.Scale ≤ sd.MaxSize * sd.Scale :=
    mul_le_mul_of_nonneg_right hmm hsc
  rw [scaledDistanceEq sd h i1 c1, scaledDistanceEq sd h i2 c2]
  exact scaledGap (sd.MinSize * sd.Scale) (sd.MaxSize * sd.Scale) (i1 * c1) (i2 * c2) hlohi

/-- C5 (witness): the amended theorem applied to the Scaled rule
`[10, 20]` at scale 1: the request `15×1` is inside the interval, so its
distance is 0, and stepping from `25×1` to `30×1` above the interval does
not decrease the distance. -/
theorem C5_scaled_distance_shape_witness :
    directorySizeDistance
      { type := "Scaled", PathName := "d", Size := 0, MinSize := 10, MaxSize := 20,
        Threshold := 0, Scale := 1, Context := "" } 15 1 = 0 ∧
    directorySizeDistance
      { type := "Scaled", PathName := "d", Size := 0, MinSize := 10, MaxSize := 20,
        Threshold := 0, Scale := 1, Context := "" } 25 1 ≤
    directorySizeDistance
      { type := "Scaled", PathName := "d", Size := 0, MinSize := 10, MaxSize := 20,
        Threshold := 0, Scale := 1, Context := "" } 30 1 := by
  have h := C5_scaled_distance_shape
    { type := "Scaled", PathName := "d", Size := 0, MinSize := 10, MaxSize := 20,
      Threshold := 0, Scale := 1, Context := "" } 25 1 30 1 rfl (by decide) (by decide)
  refine ⟨?_, h.2.2 ⟨by decide, by decide⟩⟩
  have h15 := C5_scaled_distance_shape
    { type := "Scaled", PathName := "d", Size := 0, MinSize := 10, MaxSize := 20,
      Threshold := 0, Scale := 1, Context := "" } 15 1 0 0 rfl (by decide) (by decide)
  exact h15.1 ⟨by decide, by decide⟩

/-- C6: in the inheritance walk, a declared parent name is resolved
against the theme map by trying the name verbatim, then lower-cased, then
upper-cased, then title-cased — the first spelling present wins — and a
parent name with none of the four spellings in the map is skipped: the
walk continues with the remaining parents, producing no error of its
own. -/
theorem C6_parent_resolution (tm : ThemeMap) (p : String) (t : Theme)
    (recurse : Theme → Except String String) (rest : List String) :
    (lookupTM tm p = some t → resolveParent tm p = some t) ∧
    (lookupTM tm p = none → lookupTM tm (goToLower p) = some t →
      resolveParent tm p = some t) ∧
    (lookupTM tm p = none → lookupTM tm (goToLower p) = none →
      lookupTM tm (goToUpper p) = some t → resolveParent tm p = some t) ∧
    (lookupTM tm p = none → lookupTM tm (goToLower p) = none →
      lookupTM tm (goToUpper p) = none → lookupTM tm (goTitle p) = some t →
      resolveParent tm p = some t) ∧
    (lookupTM tm p = none → lookupTM tm (goToLower p) = none →
      lookupTM tm (goToUpper p) = none → lookupTM tm (goTitle p) = none →
      resolveParent tm p = none ∧
      searchParents recurse tm (p :: rest) = searchParents recurse tm rest) := by
  refine ⟨fun h1 => ?_, fun h1 h2 => ?_, fun h1 h2 h3 => ?_, fun h1 h2 h3 h4 => ?_,
    fun h1 h2 h3 h4 => ?_⟩
  · unfold resolveParent
    rw [h1]
  · unfold resolveParent
    rw [h1, h2]
  · unfold resolveParent
    rw [h1, h2, h3]
  · unfold resolveParent
    rw [h1, h2, h3, h4]
  · have hr : resolveParent tm p = none := by
      unfold resolveParent
      rw [h1, h2, h3, h4]
    refine ⟨hr, ?_⟩
    show (match resolveParent tm p with
      | none => searchParents recurse tm rest
      | some parentTheme =>
        match recurse parentTheme with
        | Except.ok f => Except.ok f
        | Except.error _ => searchParents recurse tm rest) = searchParents recurse tm rest
    rw [hr]

/-- C6 (witness): in the map with single key `"foo"`, the parent name
`"FOO"` resolves through its lower-cased spelling, and the unresolvable
parent `"bar"` is skipped by the walk. -/
theorem C6_parent_resolution_witness :
    resolveParent [("foo", themeBare)] "FOO" = some themeBare ∧
    searchParents (fun _ => Except.error "e") [("foo", themeBare)] ["bar"] =
      searchParents (fun _ => Except.error "e") [("foo", themeBare)] [] := by
  have h := C6_parent_resolution [("foo", themeBare)] "FOO" themeBare
    (fun _ => Except.error "e") []
  have h2 := C6_parent_resolution [("foo", themeBare)] "bar" themeBare
    (fun _ => Except.error "e") []
  exact ⟨h.2.1 rfl rfl, (h2.2.2.2.2 rfl rfl rfl rfl).2⟩

/-- C2 (counterexample): with an empty theme map (so neither `"hicolor"`
nor `"Hicolor"` is a key) and `/usr/share/icons/x.png` present on disk,
`FindIcon` reports "hicolor theme not found" instead of reaching the
fixed-directory fallback, although `lookupFallbackIcon` itself would find
the file — refuting "the fixed-directory fallback is reached even when
neither key is present". -/
theorem C2_findIcon_counterexample :
    FindIcon fsPix "x" 16 1 themeBare [] 5 = Except.error "hicolor theme not found" ∧
    lookupFallbackIcon fsPix "x" = Except.ok "/usr/share/icons/x.png" ∧
    lookupTM ([] : ThemeMap) "hicolor" = none ∧
    lookupTM ([] : ThemeMap) "Hicolor" = none :=
  ⟨rfl, rfl, rfl, rfl⟩

theorem firstFileOpt_append (fs : FS) (l1 l2 : List String) :
    firstFileOpt fs (l1 ++ l2) =
      (match firstFileOpt fs l1 with
       | some f => some f
       | none => firstFileOpt fs l2) := by
  induction l1 with
  | nil => rfl
  | cons p rest ih =>
    simp only [List.cons_append, firstFileOpt]
    by_cases h : fileExists fs p = true
    · simp [h]
    · simp [h, ih]

theorem fallbackExts_eq (fs : FS) (dir icon : String) (exts : List String) :
    fallbackExts fs dir icon exts =
      firstFileOpt fs (exts.map (fun e => joinPath [dir, icon ++ "." ++ e])) := by
  induction exts with
  | nil => rfl
  | cons e rest ih =>
    simp only [fallbackExts, firstFileOpt, List.map_cons]
    by_cases h : fileExists fs (joinPath [dir, icon ++ "." ++ e]) = true
    · simp [h]
    · simp [h, ih]

theorem fallbackScan_eq (fs : FS) (icon : String) (dirs : List String) :
    fallbackScan fs icon dirs =
      firstFileOpt fs
        (dirs.flatMap (fun d => extensions.map (fun e => joinPath [d, icon ++ "." ++ e]))) := by
  induction dirs with
  | nil => rfl
  | cons d rest ih =>
    simp only [fallbackScan, List.flatMap_cons, firstFileOpt_append, fallbackExts_eq, ih]

theorem firstFile_eq (fs : FS) (l : List String) :
    firstFile fs l =
      (match firstFileOpt fs l with
       | some f => Except.ok f
       | none => Except.error "fallback icon not found") := by
  induction l with
  | nil => rfl
  | cons p rest ih =>
    simp only [firstFile, firstFileOpt]
    by_cases h : fileExists fs p = true
    · simp [h]
    · simp [h, ih]

/-- The nested directory/extension loops of `lookupFallbackIcon` return
the first existing file among the six candidates in order. -/
theorem lookupFallback_eq_firstFile (fs : FS) (icon : String) :
    lookupFallbackIcon fs icon = firstFile fs (fallbackCandidates icon) := by
  unfold lookupFallbackIcon
  rw [fallbackScan_eq, firstFile_eq]
  rfl

/-- C2 (amended): when the inheritance walk at the requested theme fails,
`FindIcon` retries the walk from the theme stored under key `"hicolor"`
(preferring `"hicolor"` over `"Hicolor"`), and when that walk also fails
it returns exactly the fixed-directory fallback scan, which tries
`/usr/share/icons` then `/usr/share/pixmaps` with extensions `png`, `svg`,
`xpm` in order and returns the first existing file.  However, when neither
`"hicolor"` nor `"Hicolor"` is a key of the theme map, `FindIcon` reports
"hicolor theme not found" without consulting the fixed directories. -/
theorem C2_findIcon_chain (fs : FS) (icon : String) (size scale : Int)
    (theme : Theme) (tm : ThemeMap) (fuel : Nat) (e1 : String)
    (h1 : findIconHelper fs icon size scale fuel theme tm = Except.error e1) :
    (hicolorTheme tm = none →
      FindIcon fs icon size scale theme tm fuel = Except.error "hicolor theme not found") ∧
    (∀ ht e2, hicolorTheme tm = some ht →
      findIconHelper fs icon size scale fuel ht tm = Except.error e2 →
      FindIcon fs icon size scale theme tm fuel = lookupFallbackIcon fs icon) ∧
    (∀ ht f, hicolorTheme tm = some ht →
      findIconHelper fs icon size scale fuel ht tm = Except.ok f →
      FindIcon fs icon size scale theme tm fuel = Except.ok f) ∧
    (lookupTM tm "hicolor" = none → hicolorTheme tm = lookupTM tm "Hicolor") ∧
    (∀ t, lookupTM tm "hicolor" = some t → hicolorTheme tm = some t) ∧
    lookupFallbackIcon fs icon = firstFile fs (fallbackCandidates icon) := by
  refine ⟨fun hh => ?_, fun ht e2 hh hhe => ?_, fun ht f hh hhf => ?_,
    fun hh => ?_, fun t hh => ?_, lookupFallback_eq_firstFile fs icon⟩
  · simp only [FindIcon, h1, hh]
  · simp only [FindIcon, h1, hh, hhe]
  · simp only [FindIcon, h1, hh, hhf]
  · unfold hicolorTheme
    rw [hh]
  · unfold hicolorTheme
    rw [hh]

/-- C2 (witness): with `/usr/share/icons/x.png` the only file, the walk
failing everywhere, and a map holding only a bare hicolor theme, the
amended theorem yields the fallback result; with the empty map it yields
the "hicolor theme not found" error. -/
theorem C2_findIcon_chain_witness :
    FindIcon fsPix "x" 16 1 themeBare [("hicolor", themeBare)] 5 =
      lookupFallbackIcon fsPix "x" ∧
    FindIcon fsPix "x" 16 1 themeBare [] 5 = Except.error "hicolor theme not found" := by
  have h := C2_findIcon_chain fsPix "x" 16 1 themeBare [("hicolor", themeBare)] 5
    "icon not found in theme or parents" rfl
  have h0 := C2_findIcon_chain fsPix "x" 16 1 themeBare [] 5
    "icon not found in theme or parents" rfl
  exact ⟨h.2.1 themeBare "icon not found in theme or parents" rfl rfl, h0.1 rfl⟩

/-- C3 (counterexample): a cache file whose age is exactly the freshness
window (`now − modTime = freshnessWindow`), holding a valid serialized
map, is not served: the `<` comparison fails, so the rebuild path runs
(empty data dirs give the empty map, flagged as rewritten) even though the
cached content decodes fine — refuting boundary-inclusive freshness. -/
theorem C3_cache_boundary_counterexample :
    CacheThemeMap freshnessWindow (some (0, encodeThemeMap [("a", themeBare)])) [] =
      Except.ok ([], true) ∧
    decodeThemeMap (encodeThemeMap [("a", themeBare)]) = some [("a", themeBare)] ∧
    ([] : ThemeMap) ≠ [("a", themeBare)] :=
  ⟨rfl, rfl, by decide⟩

/-- C3 (amended): `CacheThemeMap` serves the deserialized cache content
without rebuilding or rewriting exactly when the file's age is strictly
less than the freshness window; an age greater than or equal to the window
— boundary excluded — or a missing file triggers the full rebuild and
rewrite. -/
theorem C3_cache_freshness (now modTime : Int) (content : JValue)
    (dataDirs : List (Option (List VisitedDir))) (tm : ThemeMap) :
    (now - modTime < freshnessWindow → decodeThemeMap content = some tm →
      CacheThemeMap now (some (modTime, content)) dataDirs = Except.ok (tm, false)) ∧
    (freshnessWindow ≤ now - modTime →
      CacheThemeMap now (some (modTime, content)) dataDirs = rebuildAndWrite dataDirs) ∧
    CacheThemeMap now none dataDirs = rebuildAndWrite dataDirs := by
  refine ⟨fun hf hd => ?_, fun hs => ?_, rfl⟩
  · simp only [CacheThemeMap, if_pos hf, hd]
  · simp only [CacheThemeMap,
      if_neg (by omega : ¬(now - modTime < freshnessWindow))]

/-- C3 (witness): the amended theorem at a fresh file (age 0) holding the
one-entry map: the cached content is returned with no rewrite. -/
theorem C3_cache_freshness_witness :
    CacheThemeMap 0 (some (0, encodeThemeMap [("a", themeBare)])) [] =
      Except.ok ([("a", themeBare)], false) :=
  (C3_cache_freshness 0 0 (encodeThemeMap [("a", themeBare)]) []
    [("a", themeBare)]).1 (by decide) rfl

/-- Decoding inverts encoding elementwise, hence on whole lists. -/
theorem decodeList_map (f : JValue → Option α) (g : α → JValue)
    (h : ∀ a, f (g a) = some a) : ∀ l : List α, decodeList f (l.map g) = some l := by
  intro l
  induction l with
  | nil => rfl
  | cons a rest ih => simp [decodeList, h a, ih]

/-- Subdir serialization round-trips. -/
theorem decodeSubdir_encodeSubdir (sd : Subdir) :
    decodeSubdir (encodeSubdir sd) = some sd := rfl

/-- Theme serialization round-trips. -/
theorem decodeTheme_encodeTheme (t : Theme) : decodeTheme (encodeTheme t) = some t := by
  have h1 := decodeList_map decodeSubdir encodeSubdir decodeSubdir_encodeSubdir t.Subdirs
  have h2 := decodeList_map decodeStr JValue.jstr (fun _ => rfl) t.Parents
  simp [decodeTheme, encodeTheme, getField, asStr, h1, h2]

/-- Theme-map serialization round-trips pairwise. -/
theorem decodeThemePairs_encode (tm : ThemeMap) :
    decodeThemePairs (tm.map (fun kv => (kv.1, encodeTheme kv.2))) = some tm := by
  induction tm with
  | nil => rfl
  | cons kv rest ih =>
    obtain ⟨k, t⟩ := kv
    simp [decodeThemePairs, decodeTheme_encodeTheme, ih]

/-- C7: serializing a Theme Map to the cache format and deserializing the
result yields an equal map — the same theme names in the same association,
and for each theme the same `Name`, `Parents`, `BasePath` and the same
`Subdir` fields (`Type`, `PathName`, `Size`, `MinSize`, `MaxSize`,
`Threshold`, `Scale`, `Context`); the serialization loses no field of the
data model. -/
theorem C7_cache_roundtrip (tm : ThemeMap) :
    decodeThemeMap (encodeThemeMap tm) = some tm :=
  decodeThemePairs_encode tm

theorem generateWalk_eq (visits : List VisitedDir) : ∀ tm : ThemeMap,
    generateWalk visits tm =
      (match firstParseError visits with
       | some e => Except.error e
       | none => Except.ok (foldThemes tm (themesOf visits))) := by
  induction visits with
  | nil => intro tm; rfl
  | cons v rest ih =>
    intro tm
    cases hv : v.indexTheme with
    | none => simp only [generateWalk, firstParseError, themesOf, hv, ih tm]
    | some file =>
      cases file with
      | error e => simp only [generateWalk, firstParseError, themesOf, hv, parseIndexTheme]
      | ok lines =>
        simp only [generateWalk, firstParseError, themesOf, hv, parseIndexTheme,
          foldThemes, ih]

/-- C8: the walk of `GenerateThemeMap` skips descriptor-less directories
without error and stores one theme per readable descriptor along the whole
visit sequence; any descriptor parse failure aborts the walk and surfaces
that underlying error — the result is then the error alone, never a
partial map of the themes parsed before the failure. -/
theorem C8_generate_abort_or_total (visits : List VisitedDir) :
    (firstParseError visits = none →
      GenerateThemeMap visits = Except.ok (foldThemes [] (themesOf visits))) ∧
    (∀ e, firstParseError visits = some e →
      GenerateThemeMap visits = Except.error ("failed to generate theme map: " ++ e)) := by
  have h := generateWalk_eq visits []
  refine ⟨fun hn => ?_, fun e he => ?_⟩ <;> unfold GenerateThemeMap <;> rw [h]
  · rw [hn]
  · rw [he]

/-- C8 (witness): a walk with a descriptor-less directory and one readable
descriptor succeeds with the one parsed theme; a walk whose second
descriptor is unreadable returns only the wrapped error, dropping the
theme parsed first. -/
theorem C8_generate_abort_or_total_witness :
    GenerateThemeMap
      [⟨"/icons/a", none⟩,
       ⟨"/icons/b", some (Except.ok ["[Icon Theme]", "Name=B"])⟩] =
      Except.ok [("B", ⟨"B", [], [], "/icons/b"⟩)] ∧
    GenerateThemeMap
      [⟨"/icons/b", some (Except.ok ["[Icon Theme]", "Name=B"])⟩,
       ⟨"/icons/c", some (Except.error "permission denied")⟩] =
      Except.error
        "failed to generate theme map: failed to open index.theme: permission denied" := by
  constructor
  · have h := (C8_generate_abort_or_total
      [⟨"/icons/a", none⟩,
       ⟨"/icons/b", some (Except.ok ["[Icon Theme]", "Name=B"])⟩]).1 rfl
    rw [h]
    rfl
  · exact (C8_generate_abort_or_total
      [⟨"/icons/b", some (Except.ok ["[Icon Theme]", "Name=B"])⟩,
       ⟨"/icons/c", some (Except.error "permission denied")⟩]).2
      "failed to open index.theme: permission denied" rfl

/-- C10: the content-processing part of `parseIndexTheme` is total — a
readable descriptor always yields a `Theme`, whatever its lines hold; the
only error cause is the file failing to open or read.  The concrete
descriptor exhibits the tolerated shapes: a comment, a blank line, a
malformed line without `=`, an unknown section whose keys are ignored, and
a non-numeric `Scale` value that leaves the field at 0, overwriting the
seeded default 1. -/
theorem C10_parser_total :
    (∀ (themeDir : String) (lines : List String),
      parseIndexTheme themeDir (Except.ok lines) =
        Except.ok (parseIndexThemeContent themeDir lines)) ∧
    (∀ (themeDir e : String),
      parseIndexTheme themeDir (Except.error e) =
        Except.error ("failed to open index.theme: " ++ e)) ∧
    parseIndexThemeContent "/d"
      ["# comment", "", "[Icon Theme]", "Name=T", "Inherits=A,B",
       "Directories=foo", "garbage line", "[foo]", "Scale=abc", "[unknown]",
       "Size=5"] =
      { Name := "T",
        Subdirs := [{ type := "Threshold", PathName := "foo", Size := 0,
                      MinSize := 0, MaxSize := 0, Threshold := 0, Scale := 0,
                      Context := "" }],
        Parents := ["A", "B"], BasePath := "/d" } ∧
    seedSubdir.Scale = 1 ∧ atoi "abc" = none :=
  ⟨fun _ _ => rfl, fun _ _ => rfl, rfl, rfl, rfl⟩

/-- What `fileExists fs p = true` says about the filesystem: the entry
exists and is not a directory. -/
theorem fileExists_some_false {fs : FS} {p : String}
    (h : fileExists fs p = true) : fs p = some false := by
  unfold fileExists at h
  cases hf : fs p with
  | none => rw [hf] at h; exact absurd h (by simp)
  | some d =>
    rw [hf] at h
    cases d with
    | false => rfl
    | true => exact absurd h (by simp)

theorem lookupExts_inl (fs : FS) (theme : Theme) (sd : Subdir) (icon : String)
    (size scale : Int) : ∀ (exts : List String) (st : String × Int) (f : String),
    lookupExts fs theme sd icon size scale exts st = Sum.inl f →
    fileExists fs f = true := by
  intro exts
  induction exts with
  | nil => intro st f h; simp [lookupExts] at h
  | cons e rest ih =>
    intro st f h
    obtain ⟨closest, minDist⟩ := st
    simp only [lookupExts] at h
    split_ifs at h with h1 h2 h3
    · injection h with hf
      subst hf
      rw [Bool.and_eq_true] at h1
      exact h1.1
    · exact ih _ _ h
    · exact ih _ _ h
    · exact ih _ _ h

theorem lookupExts_inr (fs : FS) (theme : Theme) (sd : Subdir) (icon : String)
    (size scale : Int) : ∀ (exts : List String) (st st' : String × Int),
    goodState fs st → lookupExts fs theme sd icon size scale exts st = Sum.inr st' →
    goodState fs st' := by
  intro exts
  induction exts with
  | nil =>
    intro st st' hg h
    simp only [lookupExts] at h
    injection h with h
    exact h ▸ hg
  | cons e rest ih =>
    intro st st' hg h
    obtain ⟨closest, minDist⟩ := st
    simp only [lookupExts] at h
    split_ifs at h with h1 h2 h3
    · exact ih _ _ (Or.inr h2) h
    · exact ih _ _ hg h
    · exact ih _ _ hg h

theorem lookupSubdirs_inl (fs : FS) (theme : Theme) (icon : String)
    (size scale : Int) : ∀ (sds : List Subdir) (st : String × Int) (f : String),
    lookupSubdirs fs theme icon size scale sds st = Sum.inl f →
    fileExists fs f = true := by
  intro sds
  induction sds with
  | nil => intro st f h; simp [lookupSubdirs] at h
  | cons sd rest ih =>
    intro st f h
    simp only [lookupSubdirs] at h
    split_ifs at h with h1
    · split at h
      · rename_i g he
        injection h with hf
        subst hf
        exact lookupExts_inl fs theme sd icon size scale extensions st _ he
      · rename_i st' he
        exact ih st' _ h
    · exact ih st _ h

theorem lookupSubdirs_inr (fs : FS) (theme : Theme) (icon : String)
    (size scale : Int) : ∀ (sds : List Subdir) (st st' : String × Int),
    goodState fs st → lookupSubdirs fs theme icon size scale sds st = Sum.inr st' →
    goodState fs st' := by
  intro sds
  induction sds with
  | nil =>
    intro st st' hg h
    simp only [lookupSubdirs] at h
    injection h with h
    exact h ▸ hg
  | cons sd rest ih =>
    intro st st' hg h
    simp only [lookupSubdirs] at h
    split_ifs at h with h1
    · split at h
      · exact absurd h (by simp)
      · rename_i st'' he
        exact ih st'' st' (lookupExts_inr fs theme sd icon size scale extensions st st'' hg he) h
    · exact ih st st' hg h

/-- Every path `LookupIcon` returns was seen to exist (and pass the
directory check). -/
theorem LookupIcon_ok (fs : FS) (icon : String) (size scale : Int)
    (theme : Theme) (f : String)
    (h : LookupIcon fs icon size scale theme = Except.ok f) :
    fileExists fs f = true := by
  unfold LookupIcon at h
  split at h
  · rename_i g hs
    injection h with hf
    subst hf
    exact lookupSubdirs_inl fs theme icon size scale theme.Subdirs ("", maxInt) _ hs
  · rename_i st closest d hs
    have hg : goodState fs (closest, d) :=
      lookupSubdirs_inr fs theme icon size scale theme.Subdirs ("", maxInt) (closest, d)
        (Or.inl rfl) hs
    split at h
    · rename_i hc
      injection h with hf
      subst hf
      rcases hg with hg | hg
      · exact absurd hg hc
      · exact hg
    · exact absurd h (by simp)

/-- Every path the parents loop returns comes from a recursive call whose
results are all existing files. -/
theorem searchParents_ok (fs : FS) (recurse : Theme → Except String String)
    (tm : ThemeMap)
    (hrec : ∀ t f, recurse t = Except.ok f → fileExists fs f = true) :
    ∀ (ps : List String) (f : String),
    searchParents recurse tm ps = Except.ok f → fileExists fs f = true := by
  intro ps
  induction ps with
  | nil => intro f h; simp [searchParents] at h
  | cons p rest ih =>
    intro f h
    simp only [searchParents] at h
    split at h
    · exact ih _ h
    · rename_i pt hr
      split at h
      · rename_i g hc
        injection h with hf
        subst hf
        exact hrec pt _ hc
      · exact ih _ h

/-- Every path `findIconHelper` returns is an existing file. -/
theorem findIconHelper_ok (fs : FS) (icon : String) (size scale : Int) :
    ∀ (fuel : Nat) (theme : Theme) (tm : ThemeMap) (f : String),
    findIconHelper fs icon size scale fuel theme tm = Except.ok f →
    fileExists fs f = true := by
  intro fuel
  induction fuel with
  | zero => intro theme tm f h; simp [findIconHelper] at h
  | succ n ih =>
    intro theme tm f h
    simp only [findIconHelper] at h
    split at h
    · rename_i g hl
      injection h with hf
      subst hf
      exact LookupIcon_ok fs icon size scale theme _ hl
    · exact searchParents_ok fs _ tm (fun t f' hf => ih t tm f' hf) theme.Parents _ h

theorem firstFileOpt_ok (fs : FS) : ∀ (l : List String) (f : String),
    firstFileOpt fs l = some f → fileExists fs f = true := by
  intro l
  induction l with
  | nil => intro f h; simp [firstFileOpt] at h
  | cons p rest ih =>
    intro f h
    simp only [firstFileOpt] at h
    split_ifs at h with h1
    · injection h with hf
      subst hf
      exact h1
    · exact ih _ h

/-- Every path `lookupFallbackIcon` returns is an existing file. -/
theorem lookupFallbackIcon_ok (fs : FS) (icon : String) (f : String)
    (h : lookupFallbackIcon fs icon = Except.ok f) : fileExists fs f = true := by
  unfold lookupFallbackIcon at h
  rw [fallbackScan_eq] at h
  split at h
  · rename_i g hs
    injection h with hf
    subst hf
    exact firstFileOpt_ok fs _ _ hs
  · exact absurd h (by simp)

/-- Every path `FindIcon` returns is an existing file. -/
theorem FindIcon_ok (fs : FS) (icon : String) (size scale : Int)
    (theme : Theme) (tm : ThemeMap) (fuel : Nat) (f : String)
    (h : FindIcon fs icon size scale theme tm fuel = Except.ok f) :
    fileExists fs f = true := by
  unfold FindIcon at h
  split at h
  · rename_i g h1
    injection h with hf
    subst hf
    exact findIconHelper_ok fs icon size scale fuel theme tm _ h1
  · rename_i e h1
    split at h
    · exact absurd h (by simp)
    · rename_i hic h2
      split at h
      · rename_i g h3
        injection h with hf
        subst hf
        exact findIconHelper_ok fs icon size scale fuel hic tm _ h3
      · exact lookupFallbackIcon_ok fs icon _ h

/-- C9: whenever `LookupIcon`, `findIconHelper`, `FindIcon` or
`lookupFallbackIcon` returns a path without error, the filesystem entry at
that path exists and is not a directory — `fileExists`, the existence
check every lookup operation uses, rejects directories, so a directory
named like an icon file is never returned. -/
theorem C9_returned_paths_exist (fs : FS) (icon : String) (size scale : Int)
    (theme : Theme) (tm : ThemeMap) (fuel : Nat) (p : String)
    (h : LookupIcon fs icon size scale theme = Except.ok p ∨
         findIconHelper fs icon size scale fuel theme tm = Except.ok p ∨
         FindIcon fs icon size scale theme tm fuel = Except.ok p ∨
         lookupFallbackIcon fs icon = Except.ok p) :
    fs p = some false := by
  rcases h with h | h | h | h
  · exact fileExists_some_false (LookupIcon_ok fs icon size scale theme p h)
  · exact fileExists_some_false (findIconHelper_ok fs icon size scale fuel theme tm p h)
  · exact fileExists_some_false (FindIcon_ok fs icon size scale theme tm fuel p h)
  · exact fileExists_some_false (lookupFallbackIcon_ok fs icon p h)

/-- C9 (witness): the theorem applied to the fallback lookup on the
filesystem holding only `/usr/share/icons/x.png`. -/
theorem C9_returned_paths_exist_witness :
    fsPix "/usr/share/icons/x.png" = some false :=
  C9_returned_paths_exist fsPix "x" 16 1 themeBare [] 0 "/usr/share/icons/x.png"
    (Or.inr (Or.inr (Or.inr rfl)))

end Icons
